import Mathlib

/-!
Verification of the X Algorithm Analyzer core
(src/tools/x_algorithm_analyzer.py).

Shallow embedding conventions:
- Python floats are modelled as exact rationals (ℚ); decimal literals such
  as 0.45 denote the exact rational 9/20.
- Python round(x, 4) is modelled by rounding x * 10000 to the nearest
  integer and dividing back.
- Python strings are modelled by Lean strings; text scanning operates on
  the underlying character list.  All regex patterns in the source are
  plain substrings (the only escaped character is the question mark), so
  re.search is modelled by substring containment.
- Python int is modelled as ℤ, bool as Bool.
-/

namespace XAlg

/- Signal weights (class SignalWeight). -/
namespace SignalWeight

@[simp] def FAVORITE : ℚ := 1.0
@[simp] def REPLY : ℚ := 0.8
@[simp] def REPOST : ℚ := 0.75
@[simp] def QUOTE : ℚ := 0.7
@[simp] def FOLLOW_AUTHOR : ℚ := 1.2
@[simp] def VIDEO_VIEW : ℚ := 0.9
@[simp] def PROFILE_CLICK : ℚ := 0.5
@[simp] def SHARE : ℚ := 0.4
@[simp] def DM_SHARE : ℚ := 0.5
@[simp] def LINK_COPY : ℚ := 0.45
@[simp] def DWELL_TIME : ℚ := 0.3
@[simp] def PHOTO_EXPAND : ℚ := 0.2
@[simp] def CONTENT_CLICK : ℚ := 0.15

@[simp] def NOT_INTERESTED : ℚ := -0.6
@[simp] def BLOCK : ℚ := -1.5
@[simp] def MUTE : ℚ := -1.2
@[simp] def REPORT : ℚ := -2.0

@[simp] def VIDEO_BONUS : ℚ := 1.15
@[simp] def OON_PENALTY : ℚ := 0.7

@[simp] def DIVERSITY_BASE : ℚ := 0.45
@[simp] def DIVERSITY_FLOOR : ℚ := 0.10

end SignalWeight

/-- Predicted probabilities for each engagement action
(dataclass EngagementProbabilities). -/
structure EngagementProbabilities where
  favorite : ℚ := 0.0
  reply : ℚ := 0.0
  repost : ℚ := 0.0
  quote : ℚ := 0.0
  follow_author : ℚ := 0.0
  video_view : ℚ := 0.0
  profile_click : ℚ := 0.0
  share : ℚ := 0.0
  dm_share : ℚ := 0.0
  link_copy : ℚ := 0.0
  dwell_time : ℚ := 0.0
  photo_expand : ℚ := 0.0
  content_click : ℚ := 0.0
  not_interested : ℚ := 0.0
  block : ℚ := 0.0
  mute : ℚ := 0.0
  report : ℚ := 0.0
  deriving Repr, DecidableEq

/-- Modifiers that affect the final score (dataclass ContentModifiers). -/
structure ContentModifiers where
  has_video : Bool := false
  is_out_of_network : Bool := false
  post_position : ℤ := 1
  post_age_hours : ℚ := 0.0
  has_image : Bool := false
  has_link : Bool := false
  is_reply : Bool := false
  is_quote : Bool := false
  deriving Repr, DecidableEq

/-- Result of score calculation (dataclass ScoreResult). -/
structure ScoreResult where
  final_score : ℚ
  positive_score : ℚ
  negative_score : ℚ
  diversity_multiplier : ℚ
  oon_multiplier : ℚ
  age_multiplier : ℚ
  video_bonus_applied : Bool
  interpretation : String
  recommendations : List String := []
  deriving Repr, DecidableEq

/-- Python round(x, 4): round to 4 decimal places. -/
def round4 (x : ℚ) : ℚ := (round (x * 10000) : ℤ) / 10000

/-- The weighted sum of the 13 positive signals
(lines 191-205 of calculate_score). -/
def positive_raw (probs : EngagementProbabilities) : ℚ :=
  probs.favorite * SignalWeight.FAVORITE +
  probs.reply * SignalWeight.REPLY +
  probs.repost * SignalWeight.REPOST +
  probs.quote * SignalWeight.QUOTE +
  probs.follow_author * SignalWeight.FOLLOW_AUTHOR +
  probs.video_view * SignalWeight.VIDEO_VIEW +
  probs.profile_click * SignalWeight.PROFILE_CLICK +
  probs.share * SignalWeight.SHARE +
  probs.dm_share * SignalWeight.DM_SHARE +
  probs.link_copy * SignalWeight.LINK_COPY +
  probs.dwell_time * SignalWeight.DWELL_TIME +
  probs.photo_expand * SignalWeight.PHOTO_EXPAND +
  probs.content_click * SignalWeight.CONTENT_CLICK

/-- The weighted sum of the 4 negative signals, absolute weights
(lines 208-213 of calculate_score). -/
def negative_raw (probs : EngagementProbabilities) : ℚ :=
  probs.not_interested * |SignalWeight.NOT_INTERESTED| +
  probs.block * |SignalWeight.BLOCK| +
  probs.mute * |SignalWeight.MUTE| +
  probs.report * |SignalWeight.REPORT|

/-- XAlgorithmScorer._calculate_diversity_multiplier. -/
def _calculate_diversity_multiplier (post_position : ℤ) : ℚ :=
  if post_position ≤ 1 then 1.0
  else max SignalWeight.DIVERSITY_FLOOR
    (SignalWeight.DIVERSITY_BASE ^ (post_position - 1).toNat)

/-- XAlgorithmScorer._calculate_age_multiplier (48-hour window). -/
def _calculate_age_multiplier (age_hours : ℚ) : ℚ :=
  if age_hours ≤ 0 then 1.0
  else if age_hours ≥ 48 then 0.1
  else max 0.1 (1 - age_hours / 48)

/-- XAlgorithmScorer._interpret_score; the positive and negative
arguments are accepted but unused, as in the source. -/
def _interpret_score (score : ℚ) (_positive : ℚ) (_negative : ℚ) : String :=
  if score < 0.3 then
    "LOW REACH: Content likely to be suppressed significantly"
  else if score < 0.6 then
    "MODERATE-LOW REACH: Content will struggle to gain traction"
  else if score < 1.0 then
    "MODERATE REACH: Content should reach some users"
  else if score < 1.5 then
    "GOOD REACH: Content is well-positioned in the algorithm"
  else if score < 2.0 then
    "EXCELLENT REACH: Content optimized for strong distribution"
  else
    "VIRAL POTENTIAL: Content has maximum algorithmic support"

/-- XAlgorithmScorer._generate_recommendations: sequentially appends a
message for every rule whose condition holds, in source order. -/
def _generate_recommendations (probs : EngagementProbabilities)
    (modifiers : ContentModifiers) (score : ℚ) : List String :=
  let recs : List String := []
  let recs := if probs.block > 0.05 ∨ probs.mute > 0.05 ∨ probs.report > 0.02 then
    recs ++ ["WARNING: High negative signal probability. Review content for controversial elements."]
    else recs
  let recs := if probs.not_interested > 0.1 then
    recs ++ ["Consider making content more engaging or relevant to your audience."]
    else recs
  let pos := modifiers.post_position
  let recs := if modifiers.post_position > 2 then
    recs ++ [s!"You\x27re on post #{pos} today. Consider spacing posts for better reach."]
    else recs
  let recs := if modifiers.is_out_of_network then
    recs ++ ["Out-of-network content receives ~30% penalty. Build your follower base."]
    else recs
  let recs := if modifiers.post_age_hours > 24 then
    recs ++ ["Post is aging. Content has best reach within first 24 hours."]
    else recs
  let recs := if modifiers.has_video = false ∧ probs.video_view = 0 then
    recs ++ ["Consider adding native video for additional algorithmic boost."]
    else recs
  let recs := if probs.favorite < 0.3 then
    recs ++ ["Low predicted likes. Focus on creating more likeable content (primary metric)."]
    else recs
  let recs := if probs.share < 0.05 ∧ probs.dm_share < 0.02 then
    recs ++ ["Low shareability. Create content worth sharing privately."]
    else recs
  let recs := if score > 1.5 ∧ recs.length = 0 then
    recs ++ ["Content is well-optimized! Continue this approach."]
    else recs
  recs

/-- XAlgorithmScorer.calculate_score. -/
def calculate_score (probs : EngagementProbabilities)
    (modifiers : ContentModifiers) : ScoreResult :=
  let positive_score := positive_raw probs
  let negative_score := negative_raw probs
  let video_bonus_applied : Bool :=
    modifiers.has_video && decide (probs.video_view > 0)
  let positive_score :=
    if video_bonus_applied then positive_score * SignalWeight.VIDEO_BONUS
    else positive_score
  let raw_score := positive_score - negative_score
  let diversity_multiplier := _calculate_diversity_multiplier modifiers.post_position
  let oon_multiplier := if modifiers.is_out_of_network then SignalWeight.OON_PENALTY else 1.0
  let age_multiplier := _calculate_age_multiplier modifiers.post_age_hours
  let final_score := raw_score * diversity_multiplier * oon_multiplier * age_multiplier
  let interpretation := _interpret_score final_score positive_score negative_score
  let recommendations := _generate_recommendations probs modifiers final_score
  { final_score := round4 final_score
    positive_score := round4 positive_score
    negative_score := round4 negative_score
    diversity_multiplier := round4 diversity_multiplier
    oon_multiplier := round4 oon_multiplier
    age_multiplier := round4 age_multiplier
    video_bonus_applied := video_bonus_applied
    interpretation := interpretation
    recommendations := recommendations }

/- ── Content analyzer (class ContentAnalyzer) ─────────────────────────── -/

/-- Substring test on character lists: does pat occur inside s?
Models re.search for the literal patterns of the source, and the Python
membership operator on strings. -/
def isSubList (pat : List Char) : List Char → Bool
  | [] => pat.isEmpty
  | c :: rest => pat.isPrefixOf (c :: rest) || isSubList pat rest

/-- Substring containment of pat in s (both as Python strings). -/
def containsSub (s : String) (pat : String) : Bool :=
  isSubList pat.toList s.toList

/-- ContentAnalyzer.QUESTION_PATTERNS (the regexes are literal text,
the only escape being the question mark). -/
def QUESTION_PATTERNS : List String := ["?", "what do you think", "thoughts?", "agree?"]

/-- ContentAnalyzer.CALL_TO_ACTION. -/
def CALL_TO_ACTION : List String := ["retweet", "rt if", "share", "like if", "follow"]

/-- ContentAnalyzer.CONTROVERSY_MARKERS. -/
def CONTROVERSY_MARKERS : List String := ["hot take", "unpopular opinion", "controversial"]

/-- ContentAnalyzer.POSITIVE_SENTIMENT. -/
def POSITIVE_SENTIMENT : List String := ["amazing", "incredible", "love", "best", "great"]

/-- ContentAnalyzer.NEGATIVE_TRIGGERS. -/
def NEGATIVE_TRIGGERS : List String := ["hate", "worst", "terrible", "fight me", "argue"]

/-- Splits a character list at whitespace, dropping empty words: models
Python str.split() with no arguments.  cur accumulates the current word
reversed. -/
def splitWsAux : List Char → List Char → List (List Char)
  | [], cur => if cur.isEmpty then [] else [cur.reverse]
  | c :: rest, cur =>
    if c.isWhitespace then
      if cur.isEmpty then splitWsAux rest [] else cur.reverse :: splitWsAux rest []
    else splitWsAux rest (c :: cur)

/-- len(text.split()) of the source. -/
def wordCount (text : String) : Nat := (splitWsAux text.toList []).length

/-- Python text.lower(), as a character list (ASCII case folding). -/
def lowerChars (text : String) : List Char := text.toList.map Char.toLower

/-- Does the lowered text contain the pattern? -/
def matchLower (text_lower : List Char) (pat : String) : Bool :=
  isSubList pat.toList text_lower

/-- Clamp to [0, 1]: max(0.0, min(1.0, x)) of the source. -/
def clamp01 (x : ℚ) : ℚ := max 0.0 (min 1.0 x)

/-- The normalization loop at the end of analyze_text: clamps every one
of the 17 probability fields to [0, 1]. -/
def clampProbs (p : EngagementProbabilities) : EngagementProbabilities where
  favorite := clamp01 p.favorite
  reply := clamp01 p.reply
  repost := clamp01 p.repost
  quote := clamp01 p.quote
  follow_author := clamp01 p.follow_author
  video_view := clamp01 p.video_view
  profile_click := clamp01 p.profile_click
  share := clamp01 p.share
  dm_share := clamp01 p.dm_share
  link_copy := clamp01 p.link_copy
  dwell_time := clamp01 p.dwell_time
  photo_expand := clamp01 p.photo_expand
  content_click := clamp01 p.content_click
  not_interested := clamp01 p.not_interested
  block := clamp01 p.block
  mute := clamp01 p.mute
  report := clamp01 p.report

/-- The body of ContentAnalyzer.analyze_text before the final clamp
loop: base probabilities plus every pattern-driven adjustment, in source
order. -/
def analyze_core (text : String) : EngagementProbabilities × ContentModifiers :=
  let text_lower := lowerChars text
  let word_count := wordCount text
  let probs : EngagementProbabilities :=
    { favorite := 0.3,
      reply := 0.15,
      repost := 0.08,
      quote := 0.04,
      profile_click := 0.12,
      share := 0.05,
      dm_share := 0.02,
      dwell_time := 0.25 }
  let modifiers : ContentModifiers := {}
  -- questions: the for loop breaks after the first matching pattern,
  -- so the delta is applied at most once
  let probs := if QUESTION_PATTERNS.any (matchLower text_lower) then
    { probs with reply := probs.reply + 0.15 } else probs
  -- calls to action
  let probs := if CALL_TO_ACTION.any (matchLower text_lower) then
    { probs with repost := probs.repost + 0.1, share := probs.share + 0.05 } else probs
  -- positive sentiment: counts all matching patterns
  let positive_count := (POSITIVE_SENTIMENT.filter (matchLower text_lower)).length
  let probs := { probs with
    favorite := probs.favorite + min 0.2 ((positive_count : ℚ) * 0.05) }
  -- controversy markers
  let probs := if CONTROVERSY_MARKERS.any (matchLower text_lower) then
    { probs with
      reply := probs.reply + 0.1,
      quote := probs.quote + 0.08,
      not_interested := probs.not_interested + 0.05,
      mute := probs.mute + 0.02 }
    else probs
  -- negative triggers, counted
  let negative_count := (NEGATIVE_TRIGGERS.filter (matchLower text_lower)).length
  let probs := if negative_count > 0 then
    { probs with
      block := probs.block + min 0.05 ((negative_count : ℚ) * 0.02),
      mute := probs.mute + min 0.08 ((negative_count : ℚ) * 0.03),
      not_interested := probs.not_interested + min 0.15 ((negative_count : ℚ) * 0.05) }
    else probs
  -- media indicators (Python substring membership checks)
  let modifiers := if ["http", "pic.", "video", "📹", "🎥"].any (matchLower text_lower) then
    { modifiers with has_link := true } else modifiers
  let imageHit := ["📷", "🖼️", "photo", "image"].any (matchLower text_lower)
  let modifiers := if imageHit then { modifiers with has_image := true } else modifiers
  let probs := if imageHit then { probs with photo_expand := 0.15 } else probs
  let videoHit := ["video", "📹", "🎥", "watch"].any (matchLower text_lower)
  let modifiers := if videoHit then { modifiers with has_video := true } else modifiers
  let probs := if videoHit then { probs with video_view := 0.35 } else probs
  -- dwell time by length
  let probs := if word_count > 50 then
    { probs with dwell_time := probs.dwell_time + 0.15 }
    else if word_count < 10 then { probs with dwell_time := probs.dwell_time - 0.1 }
    else probs
  -- reply detection
  let modifiers := match text_lower with
    | '@' :: _ => { modifiers with is_reply := true }
    | _ => modifiers
  (probs, modifiers)

/-- ContentAnalyzer.analyze_text: heuristic adjustments followed by the
clamp of all 17 probability fields to [0, 1]. -/
def analyze_text (text : String) : EngagementProbabilities × ContentModifiers :=
  let (probs, modifiers) := analyze_core text
  (clampProbs probs, modifiers)

/- ── Batch analyzer (class BatchAnalyzer) ─────────────────────────────── -/

/-- One entry of the per-post results list of BatchAnalyzer.analyze_posts. -/
structure BatchPostResult where
  post_number : Nat
  text_preview : String
  score : ℚ
  diversity_penalty : ℚ
  interpretation : String
  deriving Repr, DecidableEq

/-- The batch dictionary returned by BatchAnalyzer.analyze_posts. -/
structure BatchResult where
  post_count : Nat
  average_score : ℚ
  best_score : ℚ
  worst_score : ℚ
  results : List BatchPostResult
  recommendation : String
  deriving Repr, DecidableEq

/-- post[:50] + "..." when the post is longer than 50 characters. -/
def textPreview (post : String) : String :=
  if post.toList.length > 50 then String.mk (post.toList.take 50) ++ "..." else post

/-- BatchAnalyzer._batch_recommendation. -/
def _batch_recommendation (results : List BatchPostResult)
    (is_same_author : Bool) : String :=
  if results.isEmpty then "No posts to analyze."
  else if is_same_author ∧ results.length > 3 then
    let n := results.length
    s!"Warning: {n} posts from same author. Posts 4+ receive <20% of normal score. Consider spacing posts throughout the day."
  else
    let avg_score := (results.map (·.score)).sum / (results.length : ℚ)
    if avg_score < 0.5 then "Overall low engagement predicted. Review content strategy."
    else if avg_score < 1.0 then "Moderate engagement expected. Focus on increasing likeability."
    else "Good engagement potential across posts."

/-- The per-post pipeline inside the loop of analyze_posts: analyze the
text, override post_position with the 1-based index when the batch is
from one author, then score. -/
def batchPostEntry (is_same_author : Bool) (i : Nat) (post : String) : BatchPostResult :=
  let (probs, modifiers) := analyze_text post
  let modifiers := if is_same_author then
    { modifiers with post_position := (i : ℤ) + 1 } else modifiers
  let score_result := calculate_score probs modifiers
  { post_number := i + 1
    text_preview := textPreview post
    score := score_result.final_score
    diversity_penalty := score_result.diversity_multiplier
    interpretation := score_result.interpretation }

/-- BatchAnalyzer.analyze_posts. -/
def analyze_posts (posts : List String) (is_same_author : Bool) : BatchResult :=
  let results := posts.enum.map (fun p => batchPostEntry is_same_author p.1 p.2)
  let scores := results.map (·.score)
  { post_count := posts.length
    average_score :=
      if scores.isEmpty then 0 else round4 (scores.sum / (scores.length : ℚ))
    best_score :=
      match scores with
      | [] => 0
      | s :: rest => round4 (rest.foldl max s)
    worst_score :=
      match scores with
      | [] => 0
      | s :: rest => round4 (rest.foldl min s)
    results := results
    recommendation := _batch_recommendation results is_same_author }

/- ── Auxiliary definitions used by the verification statements ────────── -/

/-- Probabilities with every field 0 except favorite. -/
def onlyFavorite (q : ℚ) : EngagementProbabilities := { favorite := q }

/-- The example text of the spec that triggers both the controversy and
the negative-trigger branches. -/
def hotTakeText : String := "hot take: this is terrible, fight me"

/-- Every one of the 17 probability fields lies in [0, 1]. -/
def inRange01 (p : EngagementProbabilities) : Prop :=
  0 ≤ p.favorite ∧ p.favorite ≤ 1 ∧
  0 ≤ p.reply ∧ p.reply ≤ 1 ∧
  0 ≤ p.repost ∧ p.repost ≤ 1 ∧
  0 ≤ p.quote ∧ p.quote ≤ 1 ∧
  0 ≤ p.follow_author ∧ p.follow_author ≤ 1 ∧
  0 ≤ p.video_view ∧ p.video_view ≤ 1 ∧
  0 ≤ p.profile_click ∧ p.profile_click ≤ 1 ∧
  0 ≤ p.share ∧ p.share ≤ 1 ∧
  0 ≤ p.dm_share ∧ p.dm_share ≤ 1 ∧
  0 ≤ p.link_copy ∧ p.link_copy ≤ 1 ∧
  0 ≤ p.dwell_time ∧ p.dwell_time ≤ 1 ∧
  0 ≤ p.photo_expand ∧ p.photo_expand ≤ 1 ∧
  0 ≤ p.content_click ∧ p.content_click ≤ 1 ∧
  0 ≤ p.not_interested ∧ p.not_interested ≤ 1 ∧
  0 ≤ p.block ∧ p.block ≤ 1 ∧
  0 ≤ p.mute ∧ p.mute ≤ 1 ∧
  0 ≤ p.report ∧ p.report ≤ 1

/-- The eight independent recommendation rules of
_generate_recommendations as an explicit ordered concatenation, one
singleton-or-empty block per rule, in source order. -/
def recsBase (probs : EngagementProbabilities) (modifiers : ContentModifiers) : List String :=
  let pos := modifiers.post_position
  (if probs.block > 0.05 ∨ probs.mute > 0.05 ∨ probs.report > 0.02 then
    ["WARNING: High negative signal probability. Review content for controversial elements."]
    else []) ++
  (if probs.not_interested > 0.1 then
    ["Consider making content more engaging or relevant to your audience."]
    else []) ++
  (if modifiers.post_position > 2 then
    [s!"You\x27re on post #{pos} today. Consider spacing posts for better reach."]
    else []) ++
  (if modifiers.is_out_of_network then
    ["Out-of-network content receives ~30% penalty. Build your follower base."]
    else []) ++
  (if modifiers.post_age_hours > 24 then
    ["Post is aging. Content has best reach within first 24 hours."]
    else []) ++
  (if modifiers.has_video = false ∧ probs.video_view = 0 then
    ["Consider adding native video for additional algorithmic boost."]
    else []) ++
  (if probs.favorite < 0.3 then
    ["Low predicted likes. Focus on creating more likeable content (primary metric)."]
    else []) ++
  (if probs.share < 0.05 ∧ probs.dm_share < 0.02 then
    ["Low shareability. Create content worth sharing privately."]
    else [])

/- ═══════════════════════════════ Theorems ═══════════════════════════── -/

/-- Helper: clamp01 never goes below 0. -/
theorem clamp01_nonneg (x : ℚ) : 0 ≤ clamp01 x := by
  unfold clamp01
  exact le_max_of_le_left (by norm_num)

/-- Helper: clamp01 never goes above 1. -/
theorem clamp01_le_one (x : ℚ) : clamp01 x ≤ 1 := by
  unfold clamp01
  exact max_le (by norm_num) (le_trans (min_le_left _ _) (by norm_num))

/-- Helper: after the clamp loop, every probability field is in [0, 1]. -/
theorem clampProbs_inRange (p : EngagementProbabilities) : inRange01 (clampProbs p) :=
  ⟨clamp01_nonneg _, clamp01_le_one _, clamp01_nonneg _, clamp01_le_one _,
   clamp01_nonneg _, clamp01_le_one _, clamp01_nonneg _, clamp01_le_one _,
   clamp01_nonneg _, clamp01_le_one _, clamp01_nonneg _, clamp01_le_one _,
   clamp01_nonneg _, clamp01_le_one _, clamp01_nonneg _, clamp01_le_one _,
   clamp01_nonneg _, clamp01_le_one _, clamp01_nonneg _, clamp01_le_one _,
   clamp01_nonneg _, clamp01_le_one _, clamp01_nonneg _, clamp01_le_one _,
   clamp01_nonneg _, clamp01_le_one _, clamp01_nonneg _, clamp01_le_one _,
   clamp01_nonneg _, clamp01_le_one _, clamp01_nonneg _, clamp01_le_one _,
   clamp01_nonneg _, clamp01_le_one _⟩

/-- C3: the interpretation is chosen by ascending, first-match,
left-inclusive/right-exclusive bands with boundaries
0.3, 0.6, 1.0, 1.5, 2.0; in particular 0.3 maps to the MODERATE-LOW
REACH band and 2.0 to VIRAL POTENTIAL. -/
theorem interpret_score_bands (s p n : ℚ) :
    (s < 0.3 → _interpret_score s p n =
      "LOW REACH: Content likely to be suppressed significantly") ∧
    (0.3 ≤ s → s < 0.6 → _interpret_score s p n =
      "MODERATE-LOW REACH: Content will struggle to gain traction") ∧
    (0.6 ≤ s → s < 1.0 → _interpret_score s p n =
      "MODERATE REACH: Content should reach some users") ∧
    (1.0 ≤ s → s < 1.5 → _interpret_score s p n =
      "GOOD REACH: Content is well-positioned in the algorithm") ∧
    (1.5 ≤ s → s < 2.0 → _interpret_score s p n =
      "EXCELLENT REACH: Content optimized for strong distribution") ∧
    (2.0 ≤ s → _interpret_score s p n =
      "VIRAL POTENTIAL: Content has maximum algorithmic support") ∧
    _interpret_score 0.3 p n =
      "MODERATE-LOW REACH: Content will struggle to gain traction" ∧
    _interpret_score 2.0 p n =
      "VIRAL POTENTIAL: Content has maximum algorithmic support" := by
  unfold _interpret_score
  refine ⟨?_, ?_, ?_, ?_, ?_, ?_, ?_, ?_⟩
  · intro h1
    rw [if_pos h1]
  · intro h1 h2
    rw [if_neg (not_lt.mpr h1), if_pos h2]
  · intro h1 h2
    rw [if_neg (by linarith), if_neg (not_lt.mpr h1), if_pos h2]
  · intro h1 h2
    rw [if_neg (by linarith), if_neg (by linarith), if_neg (not_lt.mpr h1), if_pos h2]
  · intro h1 h2
    rw [if_neg (by linarith), if_neg (by linarith), if_neg (by linarith),
      if_neg (not_lt.mpr h1), if_pos h2]
  · intro h1
    rw [if_neg (by linarith), if_neg (by linarith), if_neg (by linarith),
      if_neg (by linarith), if_neg (not_lt.mpr h1)]
  · norm_num
  · norm_num

/-- Witness for C3: the score 0.7 lies in the [0.6, 1.0) band and is
interpreted as MODERATE REACH. -/
theorem interpret_score_bands_witness :
    _interpret_score 0.7 0 0 = "MODERATE REACH: Content should reach some users" :=
  (interpret_score_bands 0.7 0 0).2.2.1 (by norm_num) (by norm_num)

/-- C4: the age multiplier is 1.0 for age_hours ≤ 0, 0.1 for
age_hours ≥ 48, max(0.1, 1 − age_hours/48) in between, and takes the
values 1.0, 0.5, 0.1, 0.1 at ages 0, 24, 48, 100. -/
theorem age_multiplier_spec (a : ℚ) :
    (a ≤ 0 → _calculate_age_multiplier a = 1.0) ∧
    (48 ≤ a → _calculate_age_multiplier a = 0.1) ∧
    (0 < a → a < 48 → _calculate_age_multiplier a = max 0.1 (1 - a / 48)) ∧
    _calculate_age_multiplier 0 = 1.0 ∧
    _calculate_age_multiplier 24 = 0.5 ∧
    _calculate_age_multiplier 48 = 0.1 ∧
    _calculate_age_multiplier 100 = 0.1 := by
  refine ⟨?_, ?_, ?_, ?_, ?_, ?_, ?_⟩
  · intro h1
    unfold _calculate_age_multiplier
    rw [if_pos h1]
  · intro h1
    unfold _calculate_age_multiplier
    rw [if_neg (by linarith), if_pos h1]
  · intro h1 h2
    unfold _calculate_age_multiplier
    rw [if_neg (not_le.mpr h1), if_neg (not_le.mpr h2)]
  · norm_num [_calculate_age_multiplier]
  · norm_num [_calculate_age_multiplier, max_def]
  · norm_num [_calculate_age_multiplier]
  · norm_num [_calculate_age_multiplier]

/-- Witness for C4: at age 24 the linear-decay branch applies. -/
theorem age_multiplier_spec_witness :
    _calculate_age_multiplier 24 = max 0.1 (1 - 24 / 48) :=
  (age_multiplier_spec 24).2.2.1 (by norm_num) (by norm_num)

/-- Helper: the diversity multiplier never exceeds 1. -/
theorem diversity_le_one (p : ℤ) : _calculate_diversity_multiplier p ≤ 1 := by
  unfold _calculate_diversity_multiplier
  split
  · norm_num
  · exact max_le (by norm_num [SignalWeight.DIVERSITY_FLOOR])
      (pow_le_one₀ (by norm_num [SignalWeight.DIVERSITY_BASE])
        (by norm_num [SignalWeight.DIVERSITY_BASE]))

/-- Helper: the diversity multiplier never goes below the 0.10 floor. -/
theorem diversity_ge_floor (p : ℤ) : 0.10 ≤ _calculate_diversity_multiplier p := by
  unfold _calculate_diversity_multiplier
  split
  · norm_num
  · exact le_trans (by norm_num [SignalWeight.DIVERSITY_FLOOR]) (le_max_left _ _)

/-- Helper: the diversity multiplier is antitone in the post position. -/
theorem diversity_antitone {p q : ℤ} (h : p ≤ q) :
    _calculate_diversity_multiplier q ≤ _calculate_diversity_multiplier p := by
  by_cases hq : q ≤ 1
  · unfold _calculate_diversity_multiplier
    rw [if_pos hq, if_pos (le_trans h hq)]
  · by_cases hp : p ≤ 1
    · refine le_trans (diversity_le_one q) ?_
      unfold _calculate_diversity_multiplier
      rw [if_pos hp]
      norm_num
    · unfold _calculate_diversity_multiplier
      rw [if_neg hq, if_neg hp]
      refine max_le_max (le_refl _) ?_
      exact pow_le_pow_of_le_one (by norm_num [SignalWeight.DIVERSITY_BASE])
        (by norm_num [SignalWeight.DIVERSITY_BASE])
        (Int.toNat_le_toNat (by omega))

/-- C5: the diversity multiplier is 1.0 for post_position ≤ 1, equals
max(0.10, 0.45^(post_position − 1)) otherwise, always lies in
[0.10, 1.0], is exactly 1.0 at position 1, and is monotonically
non-increasing in post_position. -/
theorem diversity_multiplier_spec (p : ℤ) :
    (p ≤ 1 → _calculate_diversity_multiplier p = 1.0) ∧
    (1 < p → _calculate_diversity_multiplier p =
      max SignalWeight.DIVERSITY_FLOOR (SignalWeight.DIVERSITY_BASE ^ (p - 1).toNat)) ∧
    0.10 ≤ _calculate_diversity_multiplier p ∧
    _calculate_diversity_multiplier p ≤ 1.0 ∧
    _calculate_diversity_multiplier 1 = 1.0 ∧
    (∀ q : ℤ, p ≤ q →
      _calculate_diversity_multiplier q ≤ _calculate_diversity_multiplier p) := by
  refine ⟨?_, ?_, diversity_ge_floor p, ?_, ?_, fun q hq => diversity_antitone hq⟩
  · intro h1
    unfold _calculate_diversity_multiplier
    rw [if_pos h1]
  · intro h1
    unfold _calculate_diversity_multiplier
    rw [if_neg (not_le.mpr h1)]
  · refine le_trans (diversity_le_one p) (by norm_num)
  · unfold _calculate_diversity_multiplier
    norm_num

/-- Witness for C5: position 1 gives exactly 1.0, and the multiplier at
position 5 is no larger than at position 3. -/
theorem diversity_multiplier_spec_witness :
    _calculate_diversity_multiplier 1 = 1.0 ∧
    _calculate_diversity_multiplier 5 ≤ _calculate_diversity_multiplier 3 :=
  ⟨(diversity_multiplier_spec 1).1 (by norm_num),
   (diversity_multiplier_spec 3).2.2.2.2.2 5 (by norm_num)⟩

/-- C6: the video bonus fires iff has_video is set and video_view > 0;
exactly then positive_score is multiplied by 1.15 and
video_bonus_applied is true; in every other case video_bonus_applied is
false and positive_score is the plain weighted sum. -/
theorem video_bonus_spec (probs : EngagementProbabilities) (modifiers : ContentModifiers) :
    ((calculate_score probs modifiers).video_bonus_applied = true ↔
      (modifiers.has_video = true ∧ 0 < probs.video_view)) ∧
    (modifiers.has_video = true → 0 < probs.video_view →
      (calculate_score probs modifiers).positive_score =
        round4 (positive_raw probs * SignalWeight.VIDEO_BONUS)) ∧
    (¬ (modifiers.has_video = true ∧ 0 < probs.video_view) →
      (calculate_score probs modifiers).video_bonus_applied = false ∧
      (calculate_score probs modifiers).positive_score = round4 (positive_raw probs)) := by
  refine ⟨?_, ?_, ?_⟩
  · simp [calculate_score, Bool.and_eq_true, decide_eq_true_eq]
  · intro h1 h2
    simp [calculate_score, h1, h2]
  · intro h
    have hb : (modifiers.has_video && decide (probs.video_view > 0)) = false := by
      cases hv : modifiers.has_video
      · simp
      · have hnv : ¬ (probs.video_view > 0) := fun hlt => h ⟨hv, hlt⟩
        simp [hnv]
    constructor <;> simp [calculate_score, hb]

/-- Witness for C6: with has_video set and video_view = 0.5 the positive
score is the weighted sum multiplied by 1.15 (then rounded). -/
theorem video_bonus_spec_witness :
    (calculate_score { video_view := 0.5 } { has_video := true }).positive_score =
      round4 (positive_raw { video_view := 0.5 } * SignalWeight.VIDEO_BONUS) :=
  (video_bonus_spec { video_view := 0.5 } { has_video := true }).2.1 rfl (by norm_num)

/-- C1 counterexample: with favorite = 0.12342 and post_position = 2 the
rounded fields of the returned ScoreResult do not satisfy
final_score = (positive_score − negative_score) × diversity_multiplier
× oon_multiplier × age_multiplier: the left side is 0.0555 while the
right side is 0.1234 × 0.45 = 0.05553. -/
theorem rounded_invariant_fails :
    (calculate_score (onlyFavorite 0.12342) { post_position := 2 }).final_score ≠
      ((calculate_score (onlyFavorite 0.12342) { post_position := 2 }).positive_score -
        (calculate_score (onlyFavorite 0.12342) { post_position := 2 }).negative_score) *
        (calculate_score (onlyFavorite 0.12342) { post_position := 2 }).diversity_multiplier *
        (calculate_score (onlyFavorite 0.12342) { post_position := 2 }).oon_multiplier *
        (calculate_score (onlyFavorite 0.12342) { post_position := 2 }).age_multiplier := by
  norm_num [calculate_score, onlyFavorite, positive_raw, negative_raw, round4, round_eq,
    _calculate_diversity_multiplier, _calculate_age_multiplier]

/-- C1 amended: the invariant holds for the unrounded component values:
final_score is the rounding of
(positive − negative) × diversity × oon × age computed before any
rounding (positive including the video bonus when applied), and every
numeric field of the result is its unrounded value rounded to 4 decimal
places. -/
theorem calculate_score_unrounded_invariant (probs : EngagementProbabilities)
    (modifiers : ContentModifiers) :
    (calculate_score probs modifiers).final_score =
      round4 (((if modifiers.has_video && decide (probs.video_view > 0) then
          positive_raw probs * SignalWeight.VIDEO_BONUS else positive_raw probs) -
        negative_raw probs) *
        _calculate_diversity_multiplier modifiers.post_position *
        (if modifiers.is_out_of_network then SignalWeight.OON_PENALTY else 1.0) *
        _calculate_age_multiplier modifiers.post_age_hours) ∧
    (calculate_score probs modifiers).positive_score =
      round4 (if modifiers.has_video && decide (probs.video_view > 0) then
        positive_raw probs * SignalWeight.VIDEO_BONUS else positive_raw probs) ∧
    (calculate_score probs modifiers).negative_score = round4 (negative_raw probs) ∧
    (calculate_score probs modifiers).diversity_multiplier =
      round4 (_calculate_diversity_multiplier modifiers.post_position) ∧
    (calculate_score probs modifiers).oon_multiplier =
      round4 (if modifiers.is_out_of_network then SignalWeight.OON_PENALTY else 1.0) ∧
    (calculate_score probs modifiers).age_multiplier =
      round4 (_calculate_age_multiplier modifiers.post_age_hours) :=
  ⟨rfl, rfl, rfl, rfl, rfl, rfl⟩

/-- C2 counterexample: with favorite = 1.0 and all defaults the returned
interpretation is not the MODERATE REACH string (the claimed band name
is wrong: 1.0 falls in the less-than-1.5 band, which is GOOD REACH). -/
theorem unit_favorite_not_moderate :
    (calculate_score (onlyFavorite 1.0) {}).interpretation ≠
      "MODERATE REACH: Content should reach some users" := by
  have h : (calculate_score (onlyFavorite 1.0) {}).interpretation =
      "GOOD REACH: Content is well-positioned in the algorithm" := by
    norm_num [calculate_score, onlyFavorite, positive_raw, negative_raw, round4, round_eq,
      _interpret_score, _calculate_diversity_multiplier, _calculate_age_multiplier]
  rw [h]
  decide

/-- C2 amended: with every probability 0 except favorite = 1.0 and
default modifiers, positive_score = 1.0, final_score = 1.0, and the
interpretation is the GOOD REACH string (the band below 1.5). -/
theorem unit_favorite_example :
    (calculate_score (onlyFavorite 1.0) {}).positive_score = 1.0 ∧
    (calculate_score (onlyFavorite 1.0) {}).final_score = 1.0 ∧
    (calculate_score (onlyFavorite 1.0) {}).interpretation =
      "GOOD REACH: Content is well-positioned in the algorithm" := by
  refine ⟨?_, ?_, ?_⟩ <;>
    norm_num [calculate_score, onlyFavorite, positive_raw, negative_raw, round4, round_eq,
      _interpret_score, _calculate_diversity_multiplier, _calculate_age_multiplier]

/-- C10: with favorite = 0.29996 and default modifiers the unrounded
score 0.29996 is interpreted (LOW REACH band) before rounding, while
the returned final_score rounds up to 0.3, whose band is MODERATE-LOW
REACH: the returned interpretation does not match the band of the
returned final_score. -/
theorem interpretation_uses_unrounded_score :
    (calculate_score (onlyFavorite 0.29996) {}).final_score = 0.3 ∧
    (calculate_score (onlyFavorite 0.29996) {}).interpretation =
      "LOW REACH: Content likely to be suppressed significantly" ∧
    (calculate_score (onlyFavorite 0.29996) {}).interpretation ≠
      _interpret_score (calculate_score (onlyFavorite 0.29996) {}).final_score
        (calculate_score (onlyFavorite 0.29996) {}).positive_score
        (calculate_score (onlyFavorite 0.29996) {}).negative_score := by
  refine ⟨?_, ?_, ?_⟩ <;>
    norm_num [calculate_score, onlyFavorite, positive_raw, negative_raw, round4, round_eq,
      _interpret_score, _calculate_diversity_multiplier, _calculate_age_multiplier]
  decide

/-- C7: for every input text every probability field returned by
analyze_text lies in [0, 1]; on the example text the controversy rule
and the negative-trigger rule both contribute:
not_interested = 0.05 + 0.10 and mute = 0.02 + 0.06, summed additively
and clamped (here below 1, so unchanged). -/
theorem analyze_text_clamped :
    (∀ text : String, inRange01 (analyze_text text).1) ∧
    (analyze_text hotTakeText).1.not_interested = 0.05 + 0.10 ∧
    (analyze_text hotTakeText).1.mute = 0.02 + 0.06 := by
  have hq : QUESTION_PATTERNS.any (matchLower (lowerChars hotTakeText)) = false := by decide
  have hc : CALL_TO_ACTION.any (matchLower (lowerChars hotTakeText)) = false := by decide
  have hm : CONTROVERSY_MARKERS.any (matchLower (lowerChars hotTakeText)) = true := by decide
  have hp : (POSITIVE_SENTIMENT.filter (matchLower (lowerChars hotTakeText))).length = 0 := by
    decide
  have hn : (NEGATIVE_TRIGGERS.filter (matchLower (lowerChars hotTakeText))).length = 2 := by
    decide
  have hw : wordCount hotTakeText = 7 := by decide
  have hl : (["http", "pic.", "video", "📹", "🎥"].any (matchLower (lowerChars hotTakeText)))
      = false := by decide
  have hi : (["📷", "🖼️", "photo", "image"].any (matchLower (lowerChars hotTakeText)))
      = false := by decide
  have hv : (["video", "📹", "🎥", "watch"].any (matchLower (lowerChars hotTakeText)))
      = false := by decide
  refine ⟨fun t => ?_, ?_, ?_⟩
  · rcases hac : analyze_core t with ⟨pr, mo⟩
    have hfst : (analyze_text t).1 = clampProbs pr := by
      simp [analyze_text, hac]
    rw [hfst]
    exact clampProbs_inRange pr
  · simp only [analyze_text, analyze_core, hq, hc, hm, hp, hn, hw, hl, hi, hv]
    norm_num [clampProbs, clamp01, min_def, max_def]
  · simp only [analyze_text, analyze_core, hq, hc, hm, hp, hn, hw, hl, hi, hv]
    norm_num [clampProbs, clamp01, min_def, max_def]

/-- Helper: appending to a list under a condition equals appending the
conditional singleton. -/
theorem append_ite_singleton (c : Prop) [Decidable c] (l : List String) (a : String) :
    (if c then l ++ [a] else l) = l ++ (if c then [a] else []) := by
  split <;> simp

/-- C9: the recommendations are exactly the ordered concatenation of the
eight independent rules (in source order, no deduplication), followed by
the single well-optimized message exactly when the score exceeds 1.5 and
no rule fired. -/
theorem generate_recommendations_spec (probs : EngagementProbabilities)
    (modifiers : ContentModifiers) (score : ℚ) :
    _generate_recommendations probs modifiers score =
      recsBase probs modifiers ++
        (if score > 1.5 ∧ recsBase probs modifiers = [] then
          ["Content is well-optimized! Continue this approach."] else []) := by
  unfold _generate_recommendations recsBase
  simp only [append_ite_singleton]
  simp only [List.nil_append, List.append_assoc, List.length_eq_zero]

/-- C8: the batch average over a non-empty list of posts is the rounded
arithmetic mean of the per-post final scores, and the empty batch gives
0 for average, best and worst without any division. -/
theorem batch_average_spec (posts : List String) (sa : Bool) :
    (posts ≠ [] →
      (analyze_posts posts sa).average_score =
        round4 ((((analyze_posts posts sa).results.map (·.score)).sum) /
          ((((analyze_posts posts sa).results.map (·.score)).length : ℚ)))) ∧
    (posts = [] →
      (analyze_posts posts sa).average_score = 0 ∧
      (analyze_posts posts sa).best_score = 0 ∧
      (analyze_posts posts sa).worst_score = 0) := by
  constructor
  · intro h
    have hne : (((posts.enum.map fun p => batchPostEntry sa p.1 p.2).map (·.score)).isEmpty)
        = false := by
      simp [List.isEmpty_iff, List.map_eq_nil_iff, List.enum, List.enumFrom_eq_nil, h]
    simp only [analyze_posts, hne, Bool.false_eq_true, if_false]
  · intro h
    subst h
    simp [analyze_posts]

/-- Witness for C8: a singleton batch takes the non-empty branch of the
average-score equation. -/
theorem batch_average_spec_witness :
    (analyze_posts ["a"] true).average_score =
      round4 ((((analyze_posts ["a"] true).results.map (·.score)).sum) /
        ((((analyze_posts ["a"] true).results.map (·.score)).length : ℚ))) :=
  (batch_average_spec ["a"] true).1 (by simp)

end XAlg
